import Mathlib

/-!
Shallow embedding of the MagicBook story-generation backend
(`src/main.py`, `src/schemas.py`): the page generator, title derivation,
image-URL construction, variant sizing in `create_story`, and the
single-story read path `get_story`.  Python strings are Lean `String`s,
Python ints are `Nat` (all values involved are non-negative), Python
`None` is `Option`.
-/

/-- Decimal rendering of a natural number, as Python's `str`/f-string
interpolation produces it: most-significant digit first, no leading
zeros, `"0"` for zero. -/
def natStr (n : Nat) : String :=
  ⟨if n = 0 then ['0'] else ((Nat.digits 10 n).map Nat.digitChar).reverse⟩

/-- Left inverse of `natStr`: read a decimal string back to a number. -/
def decValOf (s : String) : Nat :=
  Nat.ofDigits 10 ((s.data.map (fun c => c.toNat - 48)).reverse)

theorem digitChar_toNat_sub (d : Nat) (h : d < 10) :
    (Nat.digitChar d).toNat - 48 = d := by
  interval_cases d <;> rfl

theorem decValOf_natStr (n : Nat) : decValOf (natStr n) = n := by
  by_cases h : n = 0
  · subst h; rfl
  · have hd : ∀ d ∈ Nat.digits 10 n, d < 10 := by
      intro d hdm
      exact Nat.digits_lt_base (by norm_num) hdm
    unfold decValOf natStr
    rw [if_neg h]
    show Nat.ofDigits 10
        ((((Nat.digits 10 n).map Nat.digitChar).reverse.map
          (fun c => c.toNat - 48)).reverse) = n
    rw [List.map_reverse, List.reverse_reverse, List.map_map]
    have heq : (Nat.digits 10 n).map ((fun c : Char => c.toNat - 48) ∘ Nat.digitChar)
        = Nat.digits 10 n := by
      refine (List.map_congr_left ?_).trans (List.map_id _)
      intro d hdm
      exact digitChar_toNat_sub d (hd d hdm)
    rw [heq, Nat.ofDigits_digits]

theorem natStr_injective : Function.Injective natStr := by
  intro m n h
  rw [← decValOf_natStr m, ← decValOf_natStr n, h]

/-- One character of Python's `str.lower()`, restricted to the Latin-1
range the program's theme strings live in: ASCII `A`–`Z` and the
accented uppercase letters `À`–`Þ` (except `×`) map 32 code points up;
every other character is unchanged. -/
def pyLowerChar (c : Char) : Char :=
  if ('A' ≤ c ∧ c ≤ 'Z') ∨ (0xC0 ≤ c.toNat ∧ c.toNat ≤ 0xDE ∧ c.toNat ≠ 0xD7) then
    Char.ofNat (c.toNat + 32)
  else c

/-- Python's `str.lower()` (Latin-1 fragment), applied characterwise. -/
def pyLower (s : String) : String := ⟨s.data.map pyLowerChar⟩

/-- Python's `x or d` for an `Optional[str]` `x`: `None` and `""` are
falsy and give the default. -/
def pyOrOpt (x : Option String) (d : String) : String :=
  match x with
  | none => d
  | some s => if s = "" then d else s

/-- Python's `x or d` for a `str` `x`: only `""` is falsy. -/
def pyOrStr (x : String) (d : String) : String :=
  if x = "" then d else x

/-- `StoryRequest` from `src/schemas.py`. -/
structure StoryRequest where
  child_name : String
  age : Nat
  theme : String
  tone : Option String
  language : String
  pages : Nat
deriving Repr, DecidableEq

/-- The pydantic range constraints on `StoryRequest` (`age` in 1..12,
`pages` in 6..20) that upstream validation enforces. -/
def ValidRequest (r : StoryRequest) : Prop :=
  1 ≤ r.age ∧ r.age ≤ 12 ∧ 6 ≤ r.pages ∧ r.pages ≤ 20

instance (r : StoryRequest) : Decidable (ValidRequest r) := by
  unfold ValidRequest; infer_instance

/-- `StoryPage` from `src/schemas.py`. -/
structure StoryPage where
  page_number : Nat
  text : String
  image_url : String
deriving Repr, DecidableEq

/-- The document assembled and persisted by `create_story`
(`src/main.py`), minus the store-assigned identifier. -/
structure StoryDoc where
  title : String
  child_name : String
  age : Nat
  theme : String
  tone : String
  language : String
  pages : Nat
  variant : String
  price_cents : Nat
  pages_data : List StoryPage
deriving Repr, DecidableEq

/-- The `themes` dict literal inside `_title_from` (`src/main.py`). -/
def themesTable : List (String × String) :=
  [("espace", "L\x27odyssée stellaire"),
   ("pirates", "Le trésor des vagues d\x27or"),
   ("jungle", "Le coeur de la forêt magique"),
   ("château", "Le secret du château arc-en-ciel")]

/-- `_title_from` (`src/main.py`): `themes.get(req.theme.lower(), fallback)`
then `f"{req.child_name} et {base}"`. -/
def title_from (req : StoryRequest) : String :=
  req.child_name ++ " et " ++
    ((themesTable.lookup (pyLower req.theme)).getD "L\x27aventure merveilleuse")

/-- The `seed` local of `_image_for` (`src/main.py`): `f"{theme}-{page}"`. -/
def image_seed (theme : String) (page : Nat) : String :=
  theme ++ "-" ++ natStr page

/-- `_image_for` (`src/main.py`). -/
def image_for (theme : String) (page : Nat) : String :=
  "https://picsum.photos/seed/" ++ image_seed theme page ++ "/960/640"

/-- The `beats` list literal of `_generate_pages` (`src/main.py`): six
numbered f-strings with `name`, `age`, `theme`, `tone` interpolated at
construction time. -/
def beats (name : String) (age : Nat) (theme : String) (tone : String) :
    List (Nat × String) :=
  [(1, name ++ ", " ++ natStr age ++ " ans, adore l\x27univers " ++ theme ++
        ". Un soir, une petite lueur vient chuchoter son prénom..."),
   (2, "La lueur ouvre un passage secret. " ++ name ++
        " respire doucement, son coeur bat fort mais " ++ tone ++ "."),
   (3, "De l\x27autre côté, un ami apparaît. Ensemble, ils découvrent une mission simple: écouter, aider et oser."),
   (4, "Un petit défi arrive. " ++ name ++
        " inspire, compte jusqu\x27à trois et trouve une idée lumineuse."),
   (5, "Le monde " ++ theme ++ " s\x27illumine. Tout devient plus doux, plus coloré, et " ++ name ++ " sourit."),
   (6, "La morale: avec gentillesse et courage, on grandit chaque jour, à son rythme.")]

/-- `_generate_pages` (`src/main.py`): the loop
`for i in range(1, total_pages + 1)` building one `StoryPage` per index,
selecting `beats[(i - 1) % len(beats)]` and replacing the literal
`"{theme}"` in its text. -/
def generate_pages (req : StoryRequest) (total_pages : Nat) : List StoryPage :=
  let name := req.child_name
  let age := req.age
  let theme := pyLower req.theme
  let tone := pyOrOpt req.tone "doux"
  let bs := beats name age theme tone
  (List.range total_pages).map (fun k =>
    let i := k + 1
    let base_idx := (i - 1) % bs.length
    let text := ((bs.getD base_idx (0, "")).2).replace "{theme}" theme
    { page_number := i, text := text, image_url := image_for theme i })

/-- `_generate_pages` with Python's fallible list indexing made explicit:
`beats[base_idx]` is modelled by `List.get?`, so an out-of-range index
(Python's `IndexError`) surfaces as `none`. -/
def generate_pages_checked (req : StoryRequest) (total_pages : Nat) :
    Option (List StoryPage) :=
  let name := req.child_name
  let age := req.age
  let theme := pyLower req.theme
  let tone := pyOrOpt req.tone "doux"
  let bs := beats name age theme tone
  (List.range total_pages).mapM (fun k =>
    let i := k + 1
    let base_idx := (i - 1) % bs.length
    (bs.get? base_idx).map (fun b =>
      { page_number := i, text := b.2.replace "{theme}" theme,
        image_url := image_for theme i }))

/-- `create_story` (`src/main.py`): variant sizing, page generation,
title derivation and document assembly.  `variant` arrives validated by
the route's `Query(..., pattern)` to be `"preview"` or `"full"`. -/
def create_story (req : StoryRequest) (variant : String) : StoryDoc :=
  let target_pages := if variant = "preview" then 3 else max 6 (min req.pages 20)
  let pages := generate_pages req target_pages
  let title := title_from req
  { title := title,
    child_name := req.child_name,
    age := req.age,
    theme := req.theme,
    tone := pyOrOpt req.tone "doux",
    language := pyOrStr req.language "fr",
    pages := target_pages,
    variant := variant,
    price_cents := 1000,
    pages_data := pages }

/-- Modelled from the spec: the store's native identifier type is a BSON
ObjectId, and `bson.ObjectId(story_id)` (a library call whose code is
not in this repository) accepts a string exactly when it is a 24-character
hexadecimal string; "malformed identifiers are rejected as a client
error before querying the store". -/
def validObjectId (s : String) : Bool :=
  s.length == 24 &&
    s.data.all (fun c =>
      ('0' ≤ c && c ≤ '9') || ('a' ≤ c && c ≤ 'f') || ('A' ≤ c && c ≤ 'F'))

/-- `get_story` (`src/main.py`): the store is modelled as an association
list from identifier strings to documents; `HTTPException(status_code)`
is modelled as `Except.error status_code`.  A malformed id raises 400
before the store is consulted; a well-formed id with no document raises
404. -/
def get_story (store : List (String × StoryDoc)) (story_id : String) :
    Except Nat StoryDoc :=
  if validObjectId story_id then
    match store.lookup story_id with
    | some d => Except.ok d
    | none => Except.error 404
  else
    Except.error 400

/-- A concrete validated request (the spec's end-to-end scenario request),
used to instantiate theorems with hypotheses. -/
def sampleReq : StoryRequest :=
  { child_name := "Léa", age := 5, theme := "pirates", tone := some "doux",
    language := "fr", pages := 12 }

/-- C1: for every validated request and every target page count `n ≥ 0`,
`_generate_pages` returns exactly `n` StoryPage records whose
`page_number` fields are the ascending sequence `1, …, n`. -/
theorem C1_page_count_and_numbering (req : StoryRequest) (n : Nat)
    (hreq : ValidRequest req) :
    (generate_pages req n).length = n ∧
    (generate_pages req n).map StoryPage.page_number = List.range' 1 n := by
  constructor
  · simp [generate_pages]
  · simp only [generate_pages, List.map_map]
    rw [List.range'_eq_map_range]
    apply List.map_congr_left
    intro a _
    show a + 1 = 1 + a
    omega

theorem C1_witness :
    (generate_pages sampleReq 8).length = 8 ∧
    (generate_pages sampleReq 8).map StoryPage.page_number = List.range' 1 8 :=
  C1_page_count_and_numbering sampleReq 8 (by decide)

/-- C3: `create_story` resolves the page count to exactly 3 for
`variant = "preview"` regardless of the requested `pages`, and to
`clamp(pages, 6, 20)` for `variant = "full"`; the created story's
`pages` field is this resolved count. -/
theorem C3_variant_sizing (req : StoryRequest) :
    (create_story req "preview").pages = 3 ∧
    (create_story req "full").pages = max 6 (min req.pages 20) :=
  ⟨rfl, rfl⟩

/-- C9: for every request and each validated variant, the created story
document has `price_cents = 1000` and its `variant` field equals the
requested variant. -/
theorem C9_price_and_variant (req : StoryRequest) (variant : String)
    (hv : variant = "preview" ∨ variant = "full") :
    (create_story req variant).price_cents = 1000 ∧
    (create_story req variant).variant = variant :=
  ⟨rfl, rfl⟩

theorem C9_witness :
    (create_story sampleReq "preview").price_cents = 1000 ∧
    (create_story sampleReq "preview").variant = "preview" :=
  C9_price_and_variant sampleReq "preview" (Or.inl rfl)

/-- C10: falsy values are coerced to defaults at document-assembly time,
each field independently: a `tone` that is absent or `""` is stored as
`"doux"` whatever the language, and a `language` that is `""` is stored
as `"fr"` whatever the tone. -/
theorem C10_falsy_defaults (req : StoryRequest) (variant : String) :
    (req.tone = none ∨ req.tone = some "" →
      (create_story req variant).tone = "doux") ∧
    (req.language = "" →
      (create_story req variant).language = "fr") := by
  constructor
  · intro ht
    rcases ht with h | h <;> simp [create_story, pyOrOpt, h]
  · intro hl
    simp [create_story, pyOrStr, hl]

theorem C10_witness :
    (create_story { sampleReq with tone := none, language := "en" } "full").tone
      = "doux" ∧
    (create_story { sampleReq with tone := some "aventureux", language := "" }
        "full").language
      = "fr" :=
  ⟨(C10_falsy_defaults { sampleReq with tone := none, language := "en" }
      "full").1 (Or.inl rfl),
   (C10_falsy_defaults { sampleReq with tone := some "aventureux", language := "" }
      "full").2 rfl⟩

/-- C4: the derived title is `"{child_name} et {subtitle}"`, where the
subtitle is the fixed French phrase keyed by the lowercased theme for the
four known themes (matched case-insensitively via `str.lower()`), and the
generic `"L'aventure merveilleuse"` for every other theme. -/
theorem C4_title_derivation (req : StoryRequest) :
    title_from req =
      req.child_name ++ " et " ++
        (if pyLower req.theme = "espace" then "L\x27odyssée stellaire"
         else if pyLower req.theme = "pirates" then "Le trésor des vagues d\x27or"
         else if pyLower req.theme = "jungle" then "Le coeur de la forêt magique"
         else if pyLower req.theme = "château" then "Le secret du château arc-en-ciel"
         else "L\x27aventure merveilleuse") := by
  by_cases h1 : pyLower req.theme = "espace"
  · simp [title_from, themesTable, List.lookup, h1]
  by_cases h2 : pyLower req.theme = "pirates"
  · simp [title_from, themesTable, List.lookup, h1, h2]
  by_cases h3 : pyLower req.theme = "jungle"
  · simp [title_from, themesTable, List.lookup, h1, h2, h3]
  by_cases h4 : pyLower req.theme = "château"
  · simp [title_from, themesTable, List.lookup, h1, h2, h3, h4]
  · have e1 : (pyLower req.theme == "espace") = false := beq_eq_false_iff_ne.mpr h1
    have e2 : (pyLower req.theme == "pirates") = false := beq_eq_false_iff_ne.mpr h2
    have e3 : (pyLower req.theme == "jungle") = false := beq_eq_false_iff_ne.mpr h3
    have e4 : (pyLower req.theme == "château") = false := beq_eq_false_iff_ne.mpr h4
    simp [title_from, themesTable, List.lookup, h1, h2, h3, h4, e1, e2, e3, e4]

/-- C6: `get_story` answers a malformed identifier with the bad-request
condition (status 400) for every store — so before and independently of
any store lookup — and a well-formed identifier with no matching document
with the not-found condition (status 404); the two conditions are
distinct. -/
theorem C6_read_failure_conditions :
    (∀ (story_id : String) (store : List (String × StoryDoc)),
        validObjectId story_id = false →
        get_story store story_id = Except.error 400) ∧
    (∀ (story_id : String) (store : List (String × StoryDoc)),
        validObjectId story_id = true →
        store.lookup story_id = none →
        get_story store story_id = Except.error 404) ∧
    (400 : Nat) ≠ 404 := by
  refine ⟨?_, ?_, by decide⟩
  · intro story_id store h
    simp [get_story, h]
  · intro story_id store h hl
    simp [get_story, h, hl]

theorem C6_witness :
    get_story [] "not-a-valid-objectid-here" = Except.error 400 :=
  C6_read_failure_conditions.1 "not-a-valid-objectid-here" [] (by decide)

/-- C5: the image URL is the placeholder-service URL built from the seed
`"{theme}-{page}"` with fixed dimensions 960×640; it is a pure function
of `(theme, page)` (determinism is definitional), and for a fixed theme
two different page indices give different seeds and hence different
URLs. -/
theorem C5_image_url_seed (theme : String) (i j : Nat) (hij : i ≠ j) :
    image_for theme i =
      "https://picsum.photos/seed/" ++ image_seed theme i ++ "/960/640" ∧
    image_seed theme i ≠ image_seed theme j ∧
    image_for theme i ≠ image_for theme j := by
  have hseed : image_seed theme i ≠ image_seed theme j := by
    intro h
    have hd := congrArg String.data h
    simp only [image_seed, String.data_append] at hd
    exact hij (natStr_injective (String.ext (List.append_cancel_left hd)))
  refine ⟨rfl, hseed, ?_⟩
  intro h
  apply hseed
  have hd := congrArg String.data h
  simp only [image_for, String.data_append] at hd
  exact String.ext (List.append_cancel_left (List.append_cancel_right hd))

theorem C5_witness :
    (1 : Nat) ≠ 2 ∧
    (image_for "pirates" 1 =
      "https://picsum.photos/seed/" ++ image_seed "pirates" 1 ++ "/960/640" ∧
     image_seed "pirates" 1 ≠ image_seed "pirates" 2 ∧
     image_for "pirates" 1 ≠ image_for "pirates" 2) :=
  ⟨by decide, C5_image_url_seed "pirates" 1 2 (by decide)⟩

/-- The page built at 0-based position `k` of the generated list: beat
`k % 6` with the `"{theme}"` substitution, page number `k + 1`. -/
theorem generate_pages_get (req : StoryRequest) (n k : Nat) (h : k < n) :
    (generate_pages req n).get? k =
      some { page_number := k + 1,
             text := (((beats req.child_name req.age (pyLower req.theme)
                          (pyOrOpt req.tone "doux")).getD (k % 6) (0, "")).2).replace
                      "{theme}" (pyLower req.theme),
             image_url := image_for (pyLower req.theme) (k + 1) } := by
  simp only [generate_pages]
  rw [List.get?_map, List.get?_range h]
  simp only [Option.map_some']
  norm_num
  have hlen : (beats req.child_name req.age (pyLower req.theme)
      (pyOrOpt req.tone "doux")).length = 6 := rfl
  rw [hlen]

/-- C7: page `i` (1-based) of the generated sequence is the beat at
position `(i - 1) mod 6` with the literal `"{theme}"` replaced by the
lowercased theme; the beats are built once from `child_name`, `age` and
`tone`, so that replacement is the only per-page substitution. -/
theorem C7_page_text_formula (req : StoryRequest) (n i : Nat)
    (h1 : 1 ≤ i) (h2 : i ≤ n) :
    (generate_pages req n).get? (i - 1) =
      some { page_number := i,
             text := (((beats req.child_name req.age (pyLower req.theme)
                          (pyOrOpt req.tone "doux")).getD ((i - 1) % 6) (0, "")).2).replace
                      "{theme}" (pyLower req.theme),
             image_url := image_for (pyLower req.theme) i } := by
  rw [generate_pages_get req n (i - 1) (by omega)]
  have hi : i - 1 + 1 = i := by omega
  rw [hi]

theorem C7_witness :
    (generate_pages sampleReq 8).get? (1 - 1) =
      some { page_number := 1,
             text := (((beats sampleReq.child_name sampleReq.age
                          (pyLower sampleReq.theme)
                          (pyOrOpt sampleReq.tone "doux")).getD ((1 - 1) % 6) (0, "")).2).replace
                      "{theme}" (pyLower sampleReq.theme),
             image_url := image_for (pyLower sampleReq.theme) 1 } :=
  C7_page_text_formula sampleReq 8 1 (by decide) (by decide)

/-- C2: for any total page count `n > 6`, beat selection is periodic with
period 6: pages `i` and `i + 6` (both within range) carry the same
generated text after theme substitution. -/
theorem C2_beat_period_six (req : StoryRequest) (n i : Nat)
    (hn : 6 < n) (h1 : 1 ≤ i) (h2 : i + 6 ≤ n) :
    ((generate_pages req n).get? (i - 1)).map StoryPage.text =
    ((generate_pages req n).get? (i + 6 - 1)).map StoryPage.text := by
  rw [generate_pages_get req n (i - 1) (by omega),
      generate_pages_get req n (i + 6 - 1) (by omega)]
  simp only [Option.map_some']
  have hmod : (i + 6 - 1) % 6 = (i - 1) % 6 := by omega
  rw [hmod]

theorem C2_witness :
    ((generate_pages sampleReq 8).get? (1 - 1)).map StoryPage.text =
    ((generate_pages sampleReq 8).get? (1 + 6 - 1)).map StoryPage.text :=
  C2_beat_period_six sampleReq 8 1 (by decide) (by decide) (by decide)

/-- `mapM` over `Option` succeeds when the function succeeds pointwise. -/
theorem mapM_option_eq_map {α β : Type} (l : List α) (f : α → Option β)
    (g : α → β) (h : ∀ a ∈ l, f a = some (g a)) : l.mapM f = some (l.map g) := by
  induction l with
  | nil => rfl
  | cons a t ih =>
    rw [List.map_cons, List.mapM_cons, h a (List.mem_cons_self a t),
        ih (fun x hx => h x (List.mem_cons_of_mem a hx))]
    rfl

/-- C8: the page generator is total: with Python's fallible list indexing
made explicit, generation succeeds for every request (any strings, any
numbers) and every page count — the `IndexError` branch is unreachable,
and the result is the pure `generate_pages` value. -/
theorem C8_generator_total (req : StoryRequest) (n : Nat) :
    generate_pages_checked req n = some (generate_pages req n) := by
  simp only [generate_pages_checked, generate_pages]
  apply mapM_option_eq_map
  intro k hk
  have hlen : (beats req.child_name req.age (pyLower req.theme)
      (pyOrOpt req.tone "doux")).length = 6 := rfl
  have hlt : (k + 1 - 1) % (beats req.child_name req.age (pyLower req.theme)
      (pyOrOpt req.tone "doux")).length <
      (beats req.child_name req.age (pyLower req.theme)
        (pyOrOpt req.tone "doux")).length := by
    rw [hlen]; omega
  rw [List.get?_eq_get hlt]
  simp only [Option.map_some']
  congr 1
  rw [List.getD_eq_get?]
  rw [List.get?_eq_get hlt]
  rfl
